import Mathlib

/-!
# Verification of the BOT repository (bulk PDF-to-text converter)

Shallow embedding of `src/streamlit_app.py`.  The third-party PDF text
extractor (`pdfminer.high_level.extract_text`) and the remote
generative-language API are modelled as oracle functions returning
`Except`, where `Except.error` models a raised exception.  Byte strings
are modelled as `List Nat` (one `Nat` per byte), and a zip archive is
modelled abstractly as its ordered list of (entry name, entry bytes)
pairs, abstracting away the deflate encoding.
-/

namespace BOT

/-- Outcome of a call into the pdfminer library: an exception
(`Except.error`), a `None` return (`Except.ok none`) or a string return
(`Except.ok (some s)`). -/
abbrev LibExtract := List Nat → Except Unit (Option String)

/-- Python truthiness fallback `txt or ""` applied to the library's
return value (`None` or a string). -/
def pyOrEmpty (txt : Option String) : String :=
  match txt with
  | none => ""
  | some s => if s = "" then "" else s

/-- Embedding of `extract_text_pdfminer` (src/streamlit_app.py lines
16-27): calls the library on the bytes, substitutes the empty string
for a falsy return, and returns the empty string on any exception. -/
def extract_text_pdfminer (extract : LibExtract) (pdf_bytes : List Nat) : String :=
  match extract pdf_bytes with
  | Except.ok txt => pyOrEmpty txt
  | Except.error _ => ""

/-- Whitespace characters stripped by Python's `str.strip()` with no
arguments: the CPython `Py_UNICODE_ISSPACE` set, i.e. U+0009-U+000D,
U+001C-U+001F, space, U+0085, U+00A0 (no-break space), U+1680,
U+2000-U+200A, U+2028, U+2029, U+202F, U+205F and U+3000. -/
def isPyWhitespace (c : Char) : Bool :=
  let n := c.toNat
  (9 ≤ n && n ≤ 13) || (28 ≤ n && n ≤ 31) || n == 32 || n == 133 || n == 160 ||
    n == 5760 || (8192 ≤ n && n ≤ 8202) || n == 8232 || n == 8233 || n == 8239 ||
    n == 8287 || n == 12288

/-- `str.strip()` on a character list: drop whitespace from both ends. -/
def stripList (cs : List Char) : List Char :=
  ((cs.dropWhile isPyWhitespace).reverse.dropWhile isPyWhitespace).reverse

/-- Embedding of Python `str.strip()` with no arguments. -/
def pyStrip (s : String) : String := ⟨stripList s.data⟩

/-- UTF-8 encoding of a single character (standard 1-4 byte forms).
Lean `Char`s exclude surrogates, so `errors="ignore"` never drops
anything. -/
def utf8Char (c : Char) : List Nat :=
  let n := c.toNat
  if n < 128 then [n]
  else if n < 2048 then [192 + n / 64, 128 + n % 64]
  else if n < 65536 then [224 + n / 4096, 128 + (n / 64) % 64, 128 + n % 64]
  else [240 + n / 262144, 128 + (n / 4096) % 64, 128 + (n / 64) % 64, 128 + n % 64]

/-- Embedding of `txt.encode("utf-8", errors="ignore")`. -/
def utf8Encode (s : String) : List Nat :=
  (s.data.map utf8Char).flatten

/-- An uploaded file as the pipeline sees it: its `.name` and the bytes
`.read()` yields. -/
structure FileObj where
  name : String
  content : List Nat
deriving DecidableEq

/-- Embedding of `process_single_file` (src/streamlit_app.py lines
30-39): returns `(filename, method, text_bytes)`. -/
def process_single_file (extract : LibExtract) (file_obj : FileObj) :
    String × String × List Nat :=
  let filename := file_obj.name
  let pdf_bytes := file_obj.content
  let txt := extract_text_pdfminer extract pdf_bytes
  let method := if pyStrip txt = "" then "failed" else "pdfminer"
  let text_bytes := utf8Encode txt
  (filename, method, text_bytes)

/-- Embedding of `os.path.rfind`-style search: index of the last
occurrence of `c` in the list, `-1` when absent (as in Python). -/
def rfindChar : List Char → Char → Int
  | [], _ => -1
  | x :: xs, c =>
    let r := rfindChar xs c
    if r = -1 then (if x = c then 0 else -1) else r + 1

/-- Embedding of CPython's `posixpath.splitext` (via
`genericpath._splitext` with `sep='/'`, `extsep='.'`): split at the last
dot after the last slash, unless the basename up to that dot is all
dots. -/
def splitext (p : List Char) : List Char × List Char :=
  let sepIndex := rfindChar p '/'
  let dotIndex := rfindChar p '.'
  if sepIndex < dotIndex then
    if ((p.take dotIndex.toNat).drop (sepIndex + 1).toNat).any (fun c => c != '.') then
      (p.take dotIndex.toNat, p.drop dotIndex.toNat)
    else (p, [])
  else (p, [])

/-- `os.path.splitext(name)[0]` on strings. -/
def splitextBase (s : String) : String := ⟨(splitext s.data).1⟩

/-- Embedding of `make_zip_in_memory` (src/streamlit_app.py lines
42-54).  The archive is modelled as its ordered entry list: `writestr`
is called once per input pair, in order, with the original name's
extension replaced by `.txt`. -/
def make_zip_in_memory (results : List (String × List Nat)) : List (String × List Nat) :=
  results.map (fun r => (splitextBase r.1 ++ ".txt", r.2))

/-- Outcome of `future.result()` for one submitted task: the
`(filename, method, text_bytes)` triple, or the raised exception's
message string. -/
abbrev Task := FileObj → Except String (String × String × List Nat)

/-- Embedding of the `as_completed` fan-in loop (src/streamlit_app.py
lines 104-121) run over a given completion order: each completed
future either appends `(filename, text_bytes, method)` to `results` or
appends `(name, str(e))` to `errors`, and the loop continues. -/
def fanInLoop (task : Task) : List FileObj → List (String × List Nat × String) × List (String × String)
  | [] => ([], [])
  | f :: rest =>
    match task f with
    | Except.ok (filename, method, text_bytes) =>
        ((filename, text_bytes, method) :: (fanInLoop task rest).1, (fanInLoop task rest).2)
    | Except.error e =>
        ((fanInLoop task rest).1, (f.name, e) :: (fanInLoop task rest).2)

/-- The task submitted for each uploaded file (src/streamlit_app.py
line 107): `executor.submit(process_single_file, f)`; the embedded
`process_single_file` never raises, so its future always succeeds. -/
def submitTask (extract : LibExtract) : Task :=
  fun f => Except.ok (process_single_file extract f)

/-- `true` iff the task's future completed without raising. -/
def taskOk (task : Task) (f : FileObj) : Bool :=
  match task f with
  | Except.ok _ => true
  | Except.error _ => false

/-- Models the Streamlit `number_input` widget (src/streamlit_app.py
lines 75-78): the widget shows `value` until the user edits it and
constrains an edited value to `[min_value, max_value]`. -/
def number_input (minValue maxValue value : Int) (user : Option Int) : Int :=
  match user with
  | none => value
  | some v => max minValue (min maxValue v)

/-- The `max_workers` argument passed to `ThreadPoolExecutor`
(src/streamlit_app.py line 104): `int(workers)` where `workers` is the
sidebar `number_input("Parallel workers (bulk)", min_value=1,
max_value=16, value=4)`; `int` is the identity on the int-typed
widget value. -/
def poolMaxWorkers (user : Option Int) : Int :=
  number_input 1 16 4 user

/-- Which display branch the page takes after the loop
(src/streamlit_app.py line 131). -/
inductive DisplayPath where
  | single
  | bulk
deriving DecidableEq

/-- `if len(results) == 1:` single-file path, `else` bulk path. -/
def displayPath (results : List (String × List Nat × String)) : DisplayPath :=
  if results.length = 1 then DisplayPath.single else DisplayPath.bulk

/-- The bulk branch's zip (src/streamlit_app.py line 155):
`make_zip_in_memory([(fn, b) for fn, b, m in results])`. -/
def bulkZip (results : List (String × List Nat × String)) : List (String × List Nat) :=
  make_zip_in_memory (results.map (fun r => (r.1, r.2.1)))

/-- Modelled from the spec: the repository's second application (the
bot-configuration UI) is not under src/.  Following the spec's words,
it "assembles a prompt from dropdown selections"; the assembly is
modelled as joining the selected dropdown values. -/
def assemblePrompt (selections : List String) : String :=
  String.intercalate ", " selections

/-- What the bot-configuration button handler renders: the generated
bot with its JSON persistence payload, or a generic error message. -/
inductive BotRender where
  | result : String → String → BotRender
  | genericError : String → BotRender
deriving DecidableEq

/-- Modelled from the spec: the JSON blob the bot app offers to
persist, wrapping the API's generated text. -/
def botJson (text : String) : String :=
  "\x7b \"bot\": \"" ++ text ++ "\" \x7d"

/-- Modelled from the spec: the bot app's button handler forwards the
assembled prompt to the hosted generative-language API (an oracle that
may raise), offers the result as JSON, and catches exceptions at the
top level, rendering a generic error message. -/
def botButtonHandler (api : String → Except String String) (selections : List String) : BotRender :=
  match api (assemblePrompt selections) with
  | Except.ok text => BotRender.result text (botJson text)
  | Except.error _ => BotRender.genericError "Something went wrong. Please try again."

/-! ## Helper lemmas -/

/-- A `String.mk` is the empty string exactly when its character list is
empty. -/
theorem string_mk_eq_empty_iff (l : List Char) : (⟨l⟩ : String) = "" ↔ l = [] := by
  constructor
  · intro h
    exact congrArg String.data h
  · intro h
    rw [h]

/-- Every element surviving `dropWhile p` satisfies `p` exactly when
every element of the original list does. -/
theorem forall_dropWhile_iff (p : Char → Bool) (cs : List Char) :
    (∀ c ∈ cs.dropWhile p, p c) ↔ (∀ c ∈ cs, p c) := by
  constructor
  · intro h c hc
    rw [← List.takeWhile_append_dropWhile (p := p) (l := cs)] at hc
    rcases List.mem_append.mp hc with h1 | h2
    · exact List.mem_takeWhile_imp h1
    · exact h c h2
  · intro h c hc
    apply h
    rw [← List.takeWhile_append_dropWhile (p := p) (l := cs)]
    exact List.mem_append.mpr (Or.inr hc)

/-- Stripping yields the empty list exactly when every character is
whitespace. -/
theorem stripList_eq_nil_iff (cs : List Char) :
    stripList cs = [] ↔ ∀ c ∈ cs, isPyWhitespace c := by
  unfold stripList
  rw [List.reverse_eq_nil_iff, List.dropWhile_eq_nil_iff]
  constructor
  · intro h
    rw [← forall_dropWhile_iff isPyWhitespace cs]
    intro c hc
    exact h c (List.mem_reverse.mpr hc)
  · intro h c hc
    exact (forall_dropWhile_iff isPyWhitespace cs).mpr h c (List.mem_reverse.mp hc)

/-- `str.strip()` is empty exactly when the string is empty or all
whitespace. -/
theorem pyStrip_eq_empty_iff (s : String) :
    pyStrip s = "" ↔ ∀ c ∈ s.data, isPyWhitespace c := by
  unfold pyStrip
  rw [string_mk_eq_empty_iff, stripList_eq_nil_iff]

/-- Every character encodes to at least one UTF-8 byte. -/
theorem utf8Char_ne_nil (c : Char) : utf8Char c ≠ [] := by
  unfold utf8Char
  dsimp only
  split_ifs <;> simp

/-- The UTF-8 encoding of a non-empty string is non-empty. -/
theorem utf8Encode_ne_nil (s : String) (h : s ≠ "") : utf8Encode s ≠ [] := by
  cases s with
  | mk l =>
    cases l with
    | nil => exact absurd rfl h
    | cons c cs =>
      intro heq
      rw [utf8Encode] at heq
      simp only [List.map_cons, List.flatten_cons, List.append_eq_nil] at heq
      exact utf8Char_ne_nil c heq.1

/-- The method component of `process_single_file` is the strip test on
the extracted text. -/
theorem process_single_file_method (extract : LibExtract) (f : FileObj) :
    (process_single_file extract f).2.1 =
      (if pyStrip (extract_text_pdfminer extract f.content) = "" then "failed" else "pdfminer") :=
  rfl

/-- Fan-in over concatenated completion orders decomposes into the two
fan-ins, componentwise. -/
theorem fanInLoop_append (task : Task) (xs ys : List FileObj) :
    fanInLoop task (xs ++ ys) =
      ((fanInLoop task xs).1 ++ (fanInLoop task ys).1,
       (fanInLoop task xs).2 ++ (fanInLoop task ys).2) := by
  induction xs with
  | nil => simp [fanInLoop]
  | cons f rest ih =>
    rw [List.cons_append]
    cases h : task f with
    | ok t =>
      obtain ⟨fn, m, tb⟩ := t
      simp [fanInLoop, h, ih]
    | error e =>
      simp [fanInLoop, h, ih]

/-- The results list of the fan-in has one entry per successful task. -/
theorem fanInLoop_fst_length (task : Task) (order : List FileObj) :
    (fanInLoop task order).1.length = (order.filter (fun f => taskOk task f)).length := by
  induction order with
  | nil => rfl
  | cons f rest ih =>
    cases h : task f with
    | ok t =>
      obtain ⟨fn, m, tb⟩ := t
      simp [fanInLoop, h, ih, List.filter_cons, taskOk]
    | error e =>
      simp [fanInLoop, h, ih, List.filter_cons, taskOk]

/-- The errors list of the fan-in has one entry per failed task. -/
theorem fanInLoop_snd_length (task : Task) (order : List FileObj) :
    (fanInLoop task order).2.length = (order.filter (fun f => !taskOk task f)).length := by
  induction order with
  | nil => rfl
  | cons f rest ih =>
    cases h : task f with
    | ok t =>
      obtain ⟨fn, m, tb⟩ := t
      simp [fanInLoop, h, ih, List.filter_cons, taskOk]
    | error e =>
      simp [fanInLoop, h, ih, List.filter_cons, taskOk]

/-- Results plus errors account for every file in the order. -/
theorem fanInLoop_length_sum (task : Task) (order : List FileObj) :
    (fanInLoop task order).1.length + (fanInLoop task order).2.length = order.length := by
  induction order with
  | nil => rfl
  | cons f rest ih =>
    cases h : task f with
    | ok t =>
      obtain ⟨fn, m, tb⟩ := t
      simp [fanInLoop, h]
      omega
    | error e =>
      simp [fanInLoop, h]
      omega

/-- A successfully processed file's reordered triple lands in the
results list. -/
theorem fanInLoop_mem_ok (task : Task) (order : List FileObj) :
    ∀ f ∈ order, ∀ r, task f = Except.ok r →
      (r.1, r.2.2, r.2.1) ∈ (fanInLoop task order).1 := by
  induction order with
  | nil =>
    intro f hf
    cases hf
  | cons g rest ih =>
    intro f hf r hr
    rcases List.mem_cons.mp hf with h | h
    · subst h
      obtain ⟨fn, m, tb⟩ := r
      simp [fanInLoop, hr]
    · cases hg : task g with
      | ok t =>
        obtain ⟨fn, m, tb⟩ := t
        simp only [fanInLoop, hg]
        exact List.mem_cons_of_mem _ (ih f h r hr)
      | error e =>
        simp only [fanInLoop, hg]
        exact ih f h r hr

/-- A failed file's name and exception message land in the errors
list. -/
theorem fanInLoop_mem_error (task : Task) (order : List FileObj) :
    ∀ f ∈ order, ∀ e, task f = Except.error e →
      (f.name, e) ∈ (fanInLoop task order).2 := by
  induction order with
  | nil =>
    intro f hf
    cases hf
  | cons g rest ih =>
    intro f hf e he
    rcases List.mem_cons.mp hf with h | h
    · subst h
      simp [fanInLoop, he]
    · cases hg : task g with
      | ok t =>
        obtain ⟨fn, m, tb⟩ := t
        simp only [fanInLoop, hg]
        exact ih f h e he
      | error e2 =>
        simp only [fanInLoop, hg]
        exact List.mem_cons_of_mem _ (ih f h e he)

/-! ## Claim theorems -/

/-- C1: `extract_text_pdfminer` never propagates an exception: if the
library raises, or returns a falsy value (`None` or the empty string),
the function returns the empty string; otherwise it returns the
library's extracted text unchanged. -/
theorem extract_text_pdfminer_never_raises (extract : LibExtract) (b : List Nat) :
    (∀ e : Unit, extract b = Except.error e → extract_text_pdfminer extract b = "") ∧
    (extract b = Except.ok none → extract_text_pdfminer extract b = "") ∧
    (extract b = Except.ok (some "") → extract_text_pdfminer extract b = "") ∧
    (∀ s : String, s ≠ "" → extract b = Except.ok (some s) →
      extract_text_pdfminer extract b = s) := by
  refine ⟨fun e h => ?_, fun h => ?_, fun h => ?_, fun s hs h => ?_⟩
  · simp [extract_text_pdfminer, h]
  · simp [extract_text_pdfminer, h, pyOrEmpty]
  · simp [extract_text_pdfminer, h, pyOrEmpty]
  · simp [extract_text_pdfminer, h, pyOrEmpty, hs]

/-- Witness for C1 at concrete library outcomes. -/
theorem extract_text_pdfminer_never_raises_witness :
    extract_text_pdfminer (fun _ => Except.error ()) [3] = "" ∧
    extract_text_pdfminer (fun _ => Except.ok none) [] = "" ∧
    extract_text_pdfminer (fun _ => Except.ok (some "hello")) [] = "hello" := by
  refine ⟨?_, ?_, ?_⟩
  · exact (extract_text_pdfminer_never_raises (fun _ => Except.error ()) [3]).1 () rfl
  · exact (extract_text_pdfminer_never_raises (fun _ => Except.ok none) []).2.1 rfl
  · exact (extract_text_pdfminer_never_raises (fun _ => Except.ok (some "hello")) []).2.2.2
      "hello" (by decide) rfl

/-- C2: `process_single_file` labels a file "failed" exactly when the
extracted text is empty or all whitespace, and "pdfminer" otherwise;
an extraction error and an empty digital PDF are indistinguishable in
its output. -/
theorem process_single_file_failed_iff (extract : LibExtract) (f : FileObj) :
    ((process_single_file extract f).2.1 = "failed" ↔
      ∀ c ∈ (extract_text_pdfminer extract f.content).data, isPyWhitespace c) ∧
    ((process_single_file extract f).2.1 = "failed" ∨
      (process_single_file extract f).2.1 = "pdfminer") ∧
    process_single_file (fun _ => Except.error ()) f =
      process_single_file (fun _ => Except.ok (some "")) f := by
  refine ⟨?_, ?_, rfl⟩
  · rw [process_single_file_method]
    split_ifs with h
    · exact iff_of_true rfl ((pyStrip_eq_empty_iff _).mp h)
    · exact iff_of_false (by decide) (fun hall => h ((pyStrip_eq_empty_iff _).mpr hall))
  · rw [process_single_file_method]
    split_ifs
    · exact Or.inl rfl
    · exact Or.inr rfl

/-- Witness for C2 at a succeeding library, a raising library, and a
no-break-space-only extraction. -/
theorem process_single_file_failed_iff_witness :
    (process_single_file (fun _ => Except.ok (some "hello")) ⟨"a.pdf", []⟩).2.1 = "pdfminer" ∧
    (process_single_file (fun _ => Except.error ()) ⟨"a.pdf", []⟩).2.1 = "failed" ∧
    (process_single_file (fun _ => Except.ok (some "\u00A0")) ⟨"a.pdf", []⟩).2.1 = "failed" := by
  refine ⟨?_, ?_, ?_⟩
  · rcases (process_single_file_failed_iff (fun _ => Except.ok (some "hello")) ⟨"a.pdf", []⟩).2.1
      with hf | hp
    · exact absurd
        ((process_single_file_failed_iff (fun _ => Except.ok (some "hello")) ⟨"a.pdf", []⟩).1.mp hf)
        (by decide)
    · exact hp
  · exact (process_single_file_failed_iff (fun _ => Except.error ()) ⟨"a.pdf", []⟩).1.mpr
      (by decide)
  · exact (process_single_file_failed_iff (fun _ => Except.ok (some "\u00A0")) ⟨"a.pdf", []⟩).1.mpr
      (by decide)

/-- C3: the zip archive has exactly one entry per input pair, in input
order, the i-th entry being the i-th input's bytes under the i-th name
with its extension replaced by ".txt"; no deduplication occurs, so two
inputs with the same base name yield two entries with the same name. -/
theorem make_zip_in_memory_entries (results : List (String × List Nat)) :
    (make_zip_in_memory results).length = results.length ∧
    (∀ i : Nat, (make_zip_in_memory results)[i]? =
      (results[i]?).map (fun r => (splitextBase r.1 ++ ".txt", r.2))) ∧
    (make_zip_in_memory [("dup.pdf", [1]), ("dup.doc", [2])]).map Prod.fst =
      ["dup.txt", "dup.txt"] := by
  refine ⟨?_, fun i => ?_, by decide⟩
  · simp [make_zip_in_memory]
  · simp [make_zip_in_memory]

/-- Witness for C3 at a concrete one-element list. -/
theorem make_zip_in_memory_entries_witness :
    (make_zip_in_memory [("a.pdf", [7])]).length = 1 ∧
    (make_zip_in_memory [("a.pdf", [7])])[0]? = some ("a.txt", [7]) := by
  have h := make_zip_in_memory_entries [("a.pdf", [7])]
  exact ⟨h.1, (h.2.1 0).trans (by decide)⟩

/-- C4: the fan-in loop runs to completion: every file ends up in
exactly one of results (task succeeded) or errors (task raised, with
name and message recorded), and their lengths sum to the number of
uploaded files. -/
theorem fanInLoop_totals (task : Task) (order : List FileObj) :
    (fanInLoop task order).1.length = (order.filter (fun f => taskOk task f)).length ∧
    (fanInLoop task order).2.length = (order.filter (fun f => !taskOk task f)).length ∧
    (fanInLoop task order).1.length + (fanInLoop task order).2.length = order.length ∧
    (∀ f ∈ order, ∀ r, task f = Except.ok r →
      (r.1, r.2.2, r.2.1) ∈ (fanInLoop task order).1) ∧
    (∀ f ∈ order, ∀ e, task f = Except.error e →
      (f.name, e) ∈ (fanInLoop task order).2) :=
  ⟨fanInLoop_fst_length task order, fanInLoop_snd_length task order,
    fanInLoop_length_sum task order, fanInLoop_mem_ok task order,
    fanInLoop_mem_error task order⟩

/-- Witness for C4 with one succeeding and one raising task. -/
theorem fanInLoop_totals_witness :
    (fanInLoop (fun f => if f.name = "bad.pdf" then Except.error "boom"
        else Except.ok (f.name, "pdfminer", [1]))
      [⟨"good.pdf", []⟩, ⟨"bad.pdf", []⟩]).1.length +
    (fanInLoop (fun f => if f.name = "bad.pdf" then Except.error "boom"
        else Except.ok (f.name, "pdfminer", [1]))
      [⟨"good.pdf", []⟩, ⟨"bad.pdf", []⟩]).2.length = 2 ∧
    ("good.pdf", [1], "pdfminer") ∈
      (fanInLoop (fun f => if f.name = "bad.pdf" then Except.error "boom"
          else Except.ok (f.name, "pdfminer", [1]))
        [⟨"good.pdf", []⟩, ⟨"bad.pdf", []⟩]).1 ∧
    ("bad.pdf", "boom") ∈
      (fanInLoop (fun f => if f.name = "bad.pdf" then Except.error "boom"
          else Except.ok (f.name, "pdfminer", [1]))
        [⟨"good.pdf", []⟩, ⟨"bad.pdf", []⟩]).2 := by
  have h := fanInLoop_totals
    (fun f => if f.name = "bad.pdf" then Except.error "boom"
      else Except.ok (f.name, "pdfminer", [1]))
    [⟨"good.pdf", []⟩, ⟨"bad.pdf", []⟩]
  refine ⟨h.2.2.1, ?_, ?_⟩
  · exact h.2.2.2.1 ⟨"good.pdf", []⟩ (by simp) ("good.pdf", "pdfminer", [1]) (by simp)
  · exact h.2.2.2.2 ⟨"bad.pdf", []⟩ (by simp) "boom" (by simp)

/-- C5: the thread pool's worker count is the user-selected value,
constrained to the inclusive range 1 to 16 with default 4. -/
theorem poolMaxWorkers_range (user : Option Int) :
    1 ≤ poolMaxWorkers user ∧ poolMaxWorkers user ≤ 16 ∧
    poolMaxWorkers none = 4 ∧
    (∀ v : Int, 1 ≤ v → v ≤ 16 → poolMaxWorkers (some v) = v) := by
  refine ⟨?_, ?_, rfl, fun v h1 h2 => ?_⟩
  · cases user with
    | none => norm_num [poolMaxWorkers, number_input]
    | some v =>
      simp only [poolMaxWorkers, number_input]
      exact le_max_left 1 _
  · cases user with
    | none => norm_num [poolMaxWorkers, number_input]
    | some v =>
      simp only [poolMaxWorkers, number_input]
      exact max_le (by norm_num) (min_le_left 16 v)
  · simp [poolMaxWorkers, number_input, min_eq_right h2, max_eq_right h1]

/-- Witness for C5 at an in-range selection, an out-of-range attempt
and the default. -/
theorem poolMaxWorkers_range_witness :
    poolMaxWorkers (some 7) = 7 ∧
    1 ≤ poolMaxWorkers (some 100) ∧ poolMaxWorkers (some 100) ≤ 16 ∧
    poolMaxWorkers none = 4 :=
  ⟨(poolMaxWorkers_range (some 7)).2.2.2 7 (by decide) (by decide),
    (poolMaxWorkers_range (some 100)).1,
    (poolMaxWorkers_range (some 100)).2.1,
    (poolMaxWorkers_range none).2.2.1⟩

/-- C6: when the library succeeds with a non-empty string,
`extract_text_pdfminer` returns a non-empty string. -/
theorem extract_text_pdfminer_nonempty_on_success (extract : LibExtract) (b : List Nat)
    (s : String) (h : extract b = Except.ok (some s)) (hs : s ≠ "") :
    extract_text_pdfminer extract b ≠ "" := by
  simp [extract_text_pdfminer, h, pyOrEmpty, hs]

/-- Witness for C6 at a concrete succeeding library. -/
theorem extract_text_pdfminer_nonempty_on_success_witness :
    extract_text_pdfminer (fun _ => Except.ok (some "hello")) [5] ≠ "" :=
  extract_text_pdfminer_nonempty_on_success (fun _ => Except.ok (some "hello")) [5]
    "hello" rfl (by decide)

/-- C7: per-file tasks are independent: a file's contribution to the
fan-in is a function of its own task outcome alone, unchanged by which
or how many other files surround it in the completion order, and
`process_single_file` is a deterministic function of the file's name
and bytes alone. -/
theorem per_file_independence (task : Task) (pre post : List FileObj) (f : FileObj) :
    fanInLoop task (pre ++ f :: post) =
      ((fanInLoop task pre).1 ++ (fanInLoop task [f]).1 ++ (fanInLoop task post).1,
       (fanInLoop task pre).2 ++ (fanInLoop task [f]).2 ++ (fanInLoop task post).2) ∧
    (∀ (extract : LibExtract) (g k : FileObj), g.name = k.name → g.content = k.content →
      process_single_file extract g = process_single_file extract k) := by
  constructor
  · rw [show f :: post = [f] ++ post from rfl,
      fanInLoop_append task pre ([f] ++ post), fanInLoop_append task [f] post]
    simp [List.append_assoc]
  · intro extract g k hn hc
    cases g
    cases k
    cases hn
    cases hc
    rfl

/-- Witness for C7 at a concrete order and file pair. -/
theorem per_file_independence_witness :
    fanInLoop (submitTask (fun _ => Except.error ()))
        ([⟨"a.pdf", [1]⟩] ++ ⟨"b.pdf", [2]⟩ :: []) =
      ((fanInLoop (submitTask (fun _ => Except.error ())) [⟨"a.pdf", [1]⟩]).1 ++
        (fanInLoop (submitTask (fun _ => Except.error ())) [⟨"b.pdf", [2]⟩]).1 ++
        (fanInLoop (submitTask (fun _ => Except.error ())) []).1,
       (fanInLoop (submitTask (fun _ => Except.error ())) [⟨"a.pdf", [1]⟩]).2 ++
        (fanInLoop (submitTask (fun _ => Except.error ())) [⟨"b.pdf", [2]⟩]).2 ++
        (fanInLoop (submitTask (fun _ => Except.error ())) []).2) ∧
    process_single_file (fun _ => Except.error ()) ⟨"a.pdf", [1]⟩ =
      process_single_file (fun _ => Except.error ()) ⟨"a.pdf", [1]⟩ :=
  ⟨(per_file_independence (submitTask (fun _ => Except.error ()))
      [⟨"a.pdf", [1]⟩] [] ⟨"b.pdf", [2]⟩).1,
    (per_file_independence (submitTask (fun _ => Except.error ()))
      [⟨"a.pdf", [1]⟩] [] ⟨"b.pdf", [2]⟩).2
      (fun _ => Except.error ()) ⟨"a.pdf", [1]⟩ ⟨"a.pdf", [1]⟩ rfl rfl⟩

/-- C8: the bot-configuration app's button handler forwards the
assembled prompt to the API, offers the result as JSON, and catches
any exception at top level, rendering a generic error message. -/
theorem botButtonHandler_catches (api : String → Except String String)
    (selections : List String) :
    (∀ t, api (assemblePrompt selections) = Except.ok t →
      botButtonHandler api selections = BotRender.result t (botJson t)) ∧
    (∀ e, api (assemblePrompt selections) = Except.error e →
      botButtonHandler api selections =
        BotRender.genericError "Something went wrong. Please try again.") := by
  constructor <;> intro x h <;> simp [botButtonHandler, h]

/-- Witness for C8 at a succeeding and a raising API. -/
theorem botButtonHandler_catches_witness :
    botButtonHandler (fun _ => Except.ok "bot text") ["friendly", "sales"] =
      BotRender.result "bot text" (botJson "bot text") ∧
    botButtonHandler (fun _ => Except.error "boom") ["friendly", "sales"] =
      BotRender.genericError "Something went wrong. Please try again." :=
  ⟨(botButtonHandler_catches (fun _ => Except.ok "bot text") ["friendly", "sales"]).1
      "bot text" rfl,
    (botButtonHandler_catches (fun _ => Except.error "boom") ["friendly", "sales"]).2
      "boom" rfl⟩

/-- C9: a "failed" label does not imply empty output bytes: when the
extracted text is non-empty but all whitespace, the method is "failed"
while the text bytes are its (non-empty) UTF-8 encoding. -/
theorem failed_label_nonempty_bytes (extract : LibExtract) (f : FileObj)
    (h1 : extract_text_pdfminer extract f.content ≠ "")
    (h2 : pyStrip (extract_text_pdfminer extract f.content) = "") :
    (process_single_file extract f).2.1 = "failed" ∧
    (process_single_file extract f).2.2 =
      utf8Encode (extract_text_pdfminer extract f.content) ∧
    (process_single_file extract f).2.2 ≠ [] := by
  refine ⟨?_, rfl, ?_⟩
  · rw [process_single_file_method, if_pos h2]
  · show utf8Encode (extract_text_pdfminer extract f.content) ≠ []
    exact utf8Encode_ne_nil _ h1

/-- Witness for C9: a no-break-space-only extraction. -/
theorem failed_label_nonempty_bytes_witness :
    (process_single_file (fun _ => Except.ok (some "\u00A0")) ⟨"a.pdf", []⟩).2.1 = "failed" ∧
    (process_single_file (fun _ => Except.ok (some "\u00A0")) ⟨"a.pdf", []⟩).2.2 =
      utf8Encode (extract_text_pdfminer (fun _ => Except.ok (some "\u00A0")) []) ∧
    (process_single_file (fun _ => Except.ok (some "\u00A0")) ⟨"a.pdf", []⟩).2.2 ≠ [] :=
  failed_label_nonempty_bytes (fun _ => Except.ok (some "\u00A0")) ⟨"a.pdf", []⟩
    (by decide) (by decide)

/-- C10: the single-file display path is taken exactly when the results
list has exactly one element; one uploaded file whose task raises
leaves results empty, so the bulk path runs and the zip has zero
entries. -/
theorem single_path_iff_one_result :
    (∀ rs : List (String × List Nat × String),
      displayPath rs = DisplayPath.single ↔ rs.length = 1) ∧
    (∀ (task : Task) (f : FileObj) (e : String), task f = Except.error e →
      (fanInLoop task [f]).1 = [] ∧
      (fanInLoop task [f]).2 = [(f.name, e)] ∧
      displayPath (fanInLoop task [f]).1 = DisplayPath.bulk ∧
      bulkZip (fanInLoop task [f]).1 = []) := by
  constructor
  · intro rs
    unfold displayPath
    split_ifs with h
    · exact iff_of_true rfl h
    · exact iff_of_false (by simp) h
  · intro task f e h
    refine ⟨?_, ?_, ?_, ?_⟩ <;> simp [fanInLoop, h, displayPath, bulkZip, make_zip_in_memory]

/-- Witness for C10: one uploaded file whose task raises. -/
theorem single_path_iff_one_result_witness :
    (fanInLoop (fun _ => Except.error "boom") [⟨"a.pdf", []⟩]).1 = [] ∧
    (fanInLoop (fun _ => Except.error "boom") [⟨"a.pdf", []⟩]).2 = [("a.pdf", "boom")] ∧
    displayPath (fanInLoop (fun _ => Except.error "boom") [⟨"a.pdf", []⟩]).1 =
      DisplayPath.bulk ∧
    bulkZip (fanInLoop (fun _ => Except.error "boom") [⟨"a.pdf", []⟩]).1 = [] :=
  single_path_iff_one_result.2 (fun _ => Except.error "boom") ⟨"a.pdf", []⟩ "boom" rfl

end BOT
